import Mathlib

/-! # ccny_rgbd: RGBD frames and the feature viewer

A shallow embedding of `ccny_rgbd/structures/rgbd_frame.h` (the `RGBDFrame`
class) and of `ccny_rgbd/src/apps/feature_viewer.cpp` (the `FeatureViewer`
node).  C++ `double` and `float` values are carried as rationals: the
properties below move, compare and store them, and where the code computes
with them (the end points of the covariance markers) the statements keep the
code's own expression.
-/

namespace ccny_rgbd

/-! ## Feature detectors and the viewer state -/

/-- The concrete detector classes that `FeatureViewer::resetDetector`
instantiates (`OrbDetector`, `SurfDetector`, `GftDetector`, `StarDetector`). -/
inductive DetectorKind where
  | ORB
  | SURF
  | GFT
  | STAR
  deriving DecidableEq, Repr

/-- Modelled from the spec: the `FeatureDetector` base class, declared in
`ccny_rgbd/features/feature_detector.h`, which is not at hand.  The
configuration surface of the spec (section 6) gives a detector a maximum
depth range and a maximum depth standard deviation, and `reconfigCallback`
sets a smoothing value as well; `addr` is the identity of the heap object the
viewer's shared pointer refers to. -/
structure FeatureDetector where
  kind : DetectorKind
  addr : Nat
  smooth : Int
  max_range : ℚ
  max_stdev : ℚ
  deriving DecidableEq, Repr

/-- Modelled from the spec: `FeatureDetector::setSmooth` stores its argument. -/
def FeatureDetector.setSmooth (d : FeatureDetector) (smooth : Int) : FeatureDetector :=
  { d with smooth := smooth }

/-- Modelled from the spec: `FeatureDetector::setMaxRange` stores its argument. -/
def FeatureDetector.setMaxRange (d : FeatureDetector) (max_range : ℚ) : FeatureDetector :=
  { d with max_range := max_range }

/-- Modelled from the spec: `FeatureDetector::setMaxStDev` stores its argument. -/
def FeatureDetector.setMaxStDev (d : FeatureDetector) (max_stdev : ℚ) : FeatureDetector :=
  { d with max_stdev := max_stdev }

/-- The private node handle as the viewer reads it: each `getParam` either
finds a value or not, and a detector constructor called with the handle
starts from the settings stored under it. -/
structure NodeHandle where
  queue_size : Option Int
  detector_type : Option String
  show_keypoints : Option Bool
  publish_cloud : Option Bool
  publish_covariances : Option Bool
  detector_smooth : DetectorKind → Int
  detector_max_range : DetectorKind → ℚ
  detector_max_stdev : DetectorKind → ℚ

/-- The dynamic-reconfigure message `FeatureDetectorConfig`, with the fields
`reconfigCallback` reads. -/
structure FeatureDetectorConfig where
  detector_type : String
  smooth : Int
  max_range : ℚ
  max_stdev : ℚ
  publish_cloud : Bool
  publish_covariances : Bool
  show_keypoints : Bool
  deriving DecidableEq, Repr

/-- The members of `FeatureViewer` that the callbacks read or write.
`feature_detector_` is the shared pointer (`none` is the null pointer);
`n_alloc` counts the detector objects created so far and supplies the
identity of the next one. -/
structure FeatureViewer where
  nh_private_ : NodeHandle
  frame_count_ : Int
  queue_size_ : Int
  detector_type_ : String
  show_keypoints_ : Bool
  publish_cloud_ : Bool
  publish_covariances_ : Bool
  feature_detector_ : Option FeatureDetector
  n_alloc : Nat

/-- The statement `feature_detector_.reset(new K(nh_, nh_private_))`. -/
def FeatureViewer.resetTo (s : FeatureViewer) (k : DetectorKind) : FeatureViewer :=
  { s with
    feature_detector_ := some
      { kind := k
        addr := s.n_alloc
        smooth := s.nh_private_.detector_smooth k
        max_range := s.nh_private_.detector_max_range k
        max_stdev := s.nh_private_.detector_max_stdev k }
    n_alloc := s.n_alloc + 1 }

/-- The method `FeatureViewer::initParams` (feature_viewer.cpp:80-92). -/
def initParams (s : FeatureViewer) : FeatureViewer :=
  { s with
    queue_size_ := s.nh_private_.queue_size.getD 5
    detector_type_ := s.nh_private_.detector_type.getD "GFT"
    show_keypoints_ := s.nh_private_.show_keypoints.getD false
    publish_cloud_ := s.nh_private_.publish_cloud.getD false
    publish_covariances_ := s.nh_private_.publish_covariances.getD false }

/-- The method `FeatureViewer::resetDetector` (feature_viewer.cpp:94-121). -/
def resetDetector (s : FeatureViewer) : FeatureViewer :=
  if s.detector_type_ = "ORB" then s.resetTo DetectorKind.ORB
  else if s.detector_type_ = "SURF" then s.resetTo DetectorKind.SURF
  else if s.detector_type_ = "GFT" then s.resetTo DetectorKind.GFT
  else if s.detector_type_ = "STAR" then s.resetTo DetectorKind.STAR
  else s.resetTo DetectorKind.GFT

/-- The constructor `FeatureViewer::FeatureViewer` (feature_viewer.cpp:28-71)
up to the registration of the callbacks: the members start out
default-constructed (`frame_count_(0)`, a null detector pointer), then
`initParams` and `resetDetector` run. -/
def FeatureViewer.construct (nh_private : NodeHandle) : FeatureViewer :=
  resetDetector (initParams
    { nh_private_ := nh_private
      frame_count_ := 0
      queue_size_ := 0
      detector_type_ := ""
      show_keypoints_ := false
      publish_cloud_ := false
      publish_covariances_ := false
      feature_detector_ := none
      n_alloc := 0 })

/-- The method `FeatureViewer::reconfigCallback` (feature_viewer.cpp:247-265).
The three setter calls dereference `feature_detector_`; on a null pointer
the call has no result. -/
def reconfigCallback (s : FeatureViewer) (config : FeatureDetectorConfig) :
    Option FeatureViewer :=
  let old_detector_type := s.detector_type_
  let s1 := { s with detector_type_ := config.detector_type }
  let s2 := if old_detector_type ≠ s1.detector_type_ then resetDetector s1 else s1
  match s2.feature_detector_ with
  | none => none
  | some d =>
    some { s2 with
      feature_detector_ := some
        (((d.setSmooth config.smooth).setMaxRange config.max_range).setMaxStDev
          config.max_stdev)
      publish_cloud_ := config.publish_cloud
      publish_covariances_ := config.publish_covariances
      show_keypoints_ := config.show_keypoints }

/-! ## RGBD frames -/

/-- The header `std_msgs::Header` carried by a frame. -/
structure Header where
  seq : Nat
  stamp : Nat
  frame_id : String
  deriving DecidableEq, Repr

/-- The intrinsic parameters held by `image_geometry::PinholeCameraModel`. -/
structure PinholeCameraModel where
  fx : ℚ
  fy : ℚ
  cx : ℚ
  cy : ℚ
  deriving DecidableEq, Repr

/-- A 2D keypoint (`cv::KeyPoint`): the image location `pt`. -/
structure KeyPoint where
  pt_x : ℚ
  pt_y : ℚ
  deriving DecidableEq, Repr

/-- An Eigen `Vector3f`, indexed by row. -/
abbrev Vector3f := Fin 3 → ℚ

/-- An Eigen `Matrix3f`, indexed by row and column. -/
abbrev Matrix3f := Fin 3 → Fin 3 → ℚ

/-- The data members of `RGBDFrame` (rgbd_frame.h:69-87).  Images are lists
of rows; `depth_img` holds 16-bit readings in millimetres, 0 meaning no data;
`descriptors` is the list of rows of the descriptor matrix. -/
structure RGBDFrame where
  header : Header
  rgb_img : List (List (Nat × Nat × Nat))
  depth_img : List (List Nat)
  model : PinholeCameraModel
  keypoints : List KeyPoint
  descriptors : List (List Nat)
  kp_valid : List Bool
  kp_means : List Vector3f
  kp_covariances : List Matrix3f
  n_valid_keypoints : Int

/-! ## Publishing the covariance markers -/

/-- A `geometry_msgs::Point`. -/
structure Point where
  x : ℚ
  y : ℚ
  z : ℚ
  deriving DecidableEq, Repr

/-- The fields of `visualization_msgs::Marker` that
`publishFeatureCovariances` fills in. -/
structure Marker where
  header : Header
  ns : String
  id : Int
  scale_x : ℚ
  points : List Point
  deriving DecidableEq, Repr

/-- One pass of the loop `for (int e = 0; e < 3; ++e)` of
`publishFeatureCovariances` (feature_viewer.cpp:220-241): the two end points
of axis `e` are pushed onto the marker's points.  `sqrt` stands for the
library square root. -/
def pushAxis (sqrt : ℚ → ℚ) (mx my mz : ℚ) (evl : Fin 3 → ℚ) (evt : Fin 3 → Fin 3 → ℚ)
    (points : List Point) (e : Fin 3) : List Point :=
  let sigma := sqrt (evl e)
  let scale := sigma * 3
  let a : Point :=
    { x := mx + evt e 0 * scale, y := my + evt e 1 * scale, z := mz + evt e 2 * scale }
  let b : Point :=
    { x := mx - evt e 0 * scale, y := my - evt e 1 * scale, z := mz - evt e 2 * scale }
  points ++ [a] ++ [b]

/-- The body of the keypoint loop of `publishFeatureCovariances` for a valid
keypoint (feature_viewer.cpp:198-241): mean and covariance are copied to
OpenCV matrices, `eigen` (standing for `cv::eigen`) yields the eigenvalues
and the eigenvectors as rows, and the three axes are pushed. -/
def pushCovariance (eigen : Matrix3f → (Fin 3 → ℚ) × (Fin 3 → Fin 3 → ℚ)) (sqrt : ℚ → ℚ)
    (kp_mean : Vector3f) (kp_cov : Matrix3f) (points : List Point) : List Point :=
  let m : Fin 3 → ℚ := fun j => kp_mean j
  let cov : Matrix3f := fun j i => kp_cov j i
  let ev := eigen cov
  let mx := m 0
  let my := m 1
  let mz := m 2
  ([0, 1, 2] : List (Fin 3)).foldl (pushAxis sqrt mx my mz ev.1 ev.2) points

/-- One iteration of the keypoint loop of `publishFeatureCovariances`
(feature_viewer.cpp:194-242).  The vectors are read with the unchecked
`operator[]`; a read past the end has no result. -/
def covarianceStep (eigen : Matrix3f → (Fin 3 → ℚ) × (Fin 3 → Fin 3 → ℚ)) (sqrt : ℚ → ℚ)
    (frame : RGBDFrame) (marker : Marker) (kp_idx : Nat) : Option Marker :=
  match frame.kp_valid[kp_idx]? with
  | none => none
  | some false => some marker
  | some true =>
    match frame.kp_means[kp_idx]?, frame.kp_covariances[kp_idx]? with
    | some kp_mean, some kp_cov =>
      some { marker with points := pushCovariance eigen sqrt kp_mean kp_cov marker.points }
    | _, _ => none

/-- The method `FeatureViewer::publishFeatureCovariances`
(feature_viewer.cpp:178-245); the result is the marker handed to the
publisher.  The counter `kp_idx` is an `unsigned int`, which does not wrap
for a keypoint vector of fewer than 2^32 entries. -/
def publishFeatureCovariances (eigen : Matrix3f → (Fin 3 → ℚ) × (Fin 3 → Fin 3 → ℚ))
    (sqrt : ℚ → ℚ) (frame : RGBDFrame) : Option Marker :=
  let marker : Marker :=
    { header := frame.header, ns := "covariances", id := 0, scale_x := 0.0025, points := [] }
  (List.range frame.keypoints.length).foldlM (covarianceStep eigen sqrt frame) marker

/-- The two end points of axis `e` of a keypoint's covariance: the mean plus
and minus three standard deviations along the eigenvector. -/
def axisEnds (eigen : Matrix3f → (Fin 3 → ℚ) × (Fin 3 → Fin 3 → ℚ)) (sqrt : ℚ → ℚ)
    (kp_mean : Vector3f) (kp_cov : Matrix3f) (e : Fin 3) : List Point :=
  let evl := (eigen kp_cov).1
  let evt := (eigen kp_cov).2
  [ { x := kp_mean 0 + evt e 0 * (sqrt (evl e) * 3)
      y := kp_mean 1 + evt e 1 * (sqrt (evl e) * 3)
      z := kp_mean 2 + evt e 2 * (sqrt (evl e) * 3) },
    { x := kp_mean 0 - evt e 0 * (sqrt (evl e) * 3)
      y := kp_mean 1 - evt e 1 * (sqrt (evl e) * 3)
      z := kp_mean 2 - evt e 2 * (sqrt (evl e) * 3) } ]

/-- The six end points that a valid keypoint contributes: two for each of
the three covariance axes. -/
def axisEndPoints (eigen : Matrix3f → (Fin 3 → ℚ) × (Fin 3 → Fin 3 → ℚ)) (sqrt : ℚ → ℚ)
    (kp_mean : Vector3f) (kp_cov : Matrix3f) : List Point :=
  axisEnds eigen sqrt kp_mean kp_cov 0 ++ axisEnds eigen sqrt kp_mean kp_cov 1 ++
    axisEnds eigen sqrt kp_mean kp_cov 2

/-- The marker points the covariance display is meant to hold: the end
points of every valid keypoint, in keypoint order, nothing for an invalid
one. -/
def covarianceSegments (eigen : Matrix3f → (Fin 3 → ℚ) × (Fin 3 → Fin 3 → ℚ)) (sqrt : ℚ → ℚ) :
    List Bool → List Vector3f → List Matrix3f → List Point
  | v :: vs, m :: ms, c :: cs =>
    (if v then axisEndPoints eigen sqrt m c else []) ++ covarianceSegments eigen sqrt vs ms cs
  | _, _, _ => []

/-! ## The viewer's callbacks -/

/-- The effect of `FeatureViewer::RGBDCallback` (feature_viewer.cpp:123-159)
on the members: `feature_detector_` is dereferenced for `findFeatures`
(no result on a null pointer), the frame is local to the call, the display
and the publishers write no member, and `frame_count_` is incremented. -/
def RGBDCallback (s : FeatureViewer) : Option FeatureViewer :=
  match s.feature_detector_ with
  | none => none
  | some _ => some { s with frame_count_ := s.frame_count_ + 1 }

/-- A callback delivered to the viewer. -/
inductive Event where
  | reconfig (config : FeatureDetectorConfig)
  | rgbd

/-- Delivery of one callback. -/
def FeatureViewer.step (s : FeatureViewer) : Event → Option FeatureViewer
  | Event.reconfig config => reconfigCallback s config
  | Event.rgbd => RGBDCallback s

/-- Delivery of a sequence of callbacks, one after the other (the viewer's
mutex serialises them). -/
def FeatureViewer.run (s : FeatureViewer) (events : List Event) : Option FeatureViewer :=
  events.foldlM FeatureViewer.step s

/-- The detector class the viewer is meant to hold for a detector type
name. -/
def detectorFor (detector_type : String) : DetectorKind :=
  match detector_type with
  | "ORB" => DetectorKind.ORB
  | "SURF" => DetectorKind.SURF
  | "GFT" => DetectorKind.GFT
  | "STAR" => DetectorKind.STAR
  | _ => DetectorKind.GFT

/-- What holds of the viewer between callbacks: a detector is installed, it
is of the class that belongs to `detector_type_`, and it was allocated
earlier. -/
def FeatureViewer.Installed (s : FeatureViewer) : Prop :=
  ∃ d, s.feature_detector_ = some d ∧ d.kind = detectorFor s.detector_type_ ∧ d.addr < s.n_alloc

/-! ## Keypoint distributions

`rgbd_frame.h` declares `computeDistributions` and
`constructFeaturePointCloud`; their bodies are in `rgbd_frame.cpp`, which is
not at hand.  The declaration supplies the parameters and their default
values, the specification supplies the behaviour. -/

/-- Modelled from the spec: the Gaussian that the depth uncertainty model
(section 4.1) gives for one keypoint: the 3D mean (its third entry is the mean
depth z), the 3x3 covariance, and the modelled standard deviation of the
depth. -/
structure DepthDistribution where
  mean : Vector3f
  covariance : Matrix3f
  stdev_z : ℚ

/-- Modelled from the spec: a policy of the depth uncertainty model (section
4.1 names two, the quadratic model and the mixture model; the header declares
`getGaussianDistribution` and `getGaussianMixtureDistribution`).  A policy
sees the depth image, the intrinsics and the keypoint; which one
`computeDistributions` calls is decided in its body, so the policy is a
parameter here. -/
abbrev DepthUncertaintyModel := List (List Nat) → PinholeCameraModel → KeyPoint → DepthDistribution

/-- Modelled from the spec: the depth reading at the keypoint's pixel (row
`pt_y`, column `pt_x`, fractions dropped); there is none outside the image. -/
def depthAt (depth_img : List (List Nat)) (kp : KeyPoint) : Option Nat :=
  if kp.pt_x < 0 ∨ kp.pt_y < 0 then none
  else
    match depth_img[(Rat.floor kp.pt_y).toNat]? with
    | none => none
    | some row => row[(Rat.floor kp.pt_x).toNat]?

/-- Modelled from the spec: the validity flag, mean and covariance of one
keypoint (section 4.1): invalid if the depth is absent or zero, if the mean z
exceeds `max_z`, or if the modelled standard deviation exceeds
`max_stdev_z`; an invalid keypoint keeps a zero mean and covariance. -/
def keypointDistribution (policy : DepthUncertaintyModel) (depth_img : List (List Nat))
    (model : PinholeCameraModel) (max_z max_stdev_z : ℚ) (kp : KeyPoint) :
    Bool × Vector3f × Matrix3f :=
  match depthAt depth_img kp with
  | none => (false, fun _ => 0, fun _ _ => 0)
  | some z_raw =>
    if z_raw = 0 then (false, fun _ => 0, fun _ _ => 0)
    else
      let g := policy depth_img model kp
      if g.mean 2 > max_z ∨ g.stdev_z > max_stdev_z then (false, fun _ => 0, fun _ _ => 0)
      else (true, g.mean, g.covariance)

/-- Modelled from the spec: one pass of the keypoint loop of
`computeDistributions`: the keypoint's flag, mean and covariance are appended
and a valid keypoint is counted. -/
def distributionStep (policy : DepthUncertaintyModel) (max_z max_stdev_z : ℚ)
    (frame : RGBDFrame) (kp : KeyPoint) : RGBDFrame :=
  let r := keypointDistribution policy frame.depth_img frame.model max_z max_stdev_z kp
  { frame with
    kp_valid := frame.kp_valid ++ [r.1]
    kp_means := frame.kp_means ++ [r.2.1]
    kp_covariances := frame.kp_covariances ++ [r.2.2]
    n_valid_keypoints := if r.1 then frame.n_valid_keypoints + 1 else frame.n_valid_keypoints }

/-- Modelled from the spec: the body of `RGBDFrame::computeDistributions`
(sections 3, 4.1 and 4.2).  The per-keypoint vectors are rebuilt from the
keypoints, one entry each, and the valid ones are counted; images,
intrinsics, keypoints and descriptors are left as they are. -/
def computeDistributionsBody (policy : DepthUncertaintyModel) (frame : RGBDFrame)
    (max_z max_stdev_z : ℚ) : RGBDFrame :=
  frame.keypoints.foldl (distributionStep policy max_z max_stdev_z)
    { frame with kp_valid := [], kp_means := [], kp_covariances := [], n_valid_keypoints := 0 }

/-- The declaration of `RGBDFrame::computeDistributions` (rgbd_frame.h:97-99),
`void computeDistributions(double max_z = 5.5, double max_stdev_z = 0.03)`:
a call hands the thresholds it is written with, or else the declared default
values, to the body. -/
def computeDistributions (policy : DepthUncertaintyModel) (frame : RGBDFrame)
    (max_z : ℚ := 5.5) (max_stdev_z : ℚ := 0.03) : RGBDFrame :=
  computeDistributionsBody policy frame max_z max_stdev_z

/-- A point of the feature cloud (`PointFeature`). -/
structure PointFeature where
  x : ℚ
  y : ℚ
  z : ℚ
  deriving DecidableEq, Repr

/-- The feature cloud `PointCloudFeature`: a header and the points. -/
structure PointCloudFeature where
  header : Header
  points : List PointFeature
  deriving DecidableEq, Repr

/-- The cloud point at a 3D mean. -/
def PointFeature.ofMean (m : Vector3f) : PointFeature :=
  { x := m 0, y := m 1, z := m 2 }

/-- Modelled from the spec: the method `RGBDFrame::constructFeaturePointCloud`
(declared in rgbd_frame.h:104): the cloud is filled with the 3D means of the
valid keypoints only (section 4.2). -/
def constructFeaturePointCloud (frame : RGBDFrame) (cloud : PointCloudFeature) :
    PointCloudFeature :=
  { cloud with
    points := (List.zip frame.kp_valid frame.kp_means).filterMap fun vm =>
      if vm.1 then some (PointFeature.ofMean vm.2) else none }

/-- The method `FeatureViewer::publishFeatureCloud` (feature_viewer.cpp:170-176);
the result is the cloud handed to the publisher. -/
def publishFeatureCloud (frame : RGBDFrame) : PointCloudFeature :=
  let cloud : PointCloudFeature := { header := { seq := 0, stamp := 0, frame_id := "" }, points := [] }
  let cloud := { cloud with header := frame.header }
  constructFeaturePointCloud frame cloud

/-- The point of the cloud that keypoint `i` stands for, given the validity
flags and the means: for a valid keypoint the point whose coordinates are the
three entries of its mean, nothing for an invalid one. -/
def cloudPointAt (kp_valid : List Bool) (kp_means : List Vector3f) (i : Nat) :
    Option PointFeature :=
  match kp_valid[i]?, kp_means[i]? with
  | some true, some m => some { x := m 0, y := m 1, z := m 2 }
  | _, _ => none

/-! ## The quadratic depth noise model -/

/-- The constant `RGBDFrame::Z_STDEV_CONSTANT` (rgbd_frame.h:140). -/
def Z_STDEV_CONSTANT : ℚ := 0.001425

/-- Modelled from the spec: `RGBDFrame::getStdDevZ` (declared in
rgbd_frame.h:152, body in `rgbd_frame.cpp`): the quadratic model of section
4.1, sigma_z = k * z^2 with k the noise constant. -/
def getStdDevZ (z : ℚ) : ℚ :=
  Z_STDEV_CONSTANT * z * z

/-- Modelled from the spec: `RGBDFrame::getVarZ` (declared in
rgbd_frame.h:146, body in `rgbd_frame.cpp`): the variance of the quadratic
model, the square of its standard deviation. -/
def getVarZ (z : ℚ) : ℚ :=
  let std_dev_z := getStdDevZ z
  std_dev_z * std_dev_z

/-! ## Sample inputs -/

/-- A depth uncertainty policy for the sample inputs: the mean lies on the
optical axis at the depth read (in metres), the deviation is quadratic in
it. -/
def samplePolicy : DepthUncertaintyModel := fun depth_img _ kp =>
  let z : ℚ := ((depthAt depth_img kp).getD 0 : ℚ) / 1000
  { mean := fun j => if j = 2 then z else 0
    covariance := fun _ _ => 0
    stdev_z := 57 / 40000 * z * z }


/-- A node handle with no parameter set. -/
def sampleNodeHandle : NodeHandle :=
  { queue_size := none
    detector_type := none
    show_keypoints := none
    publish_cloud := none
    publish_covariances := none
    detector_smooth := fun _ => 0
    detector_max_range := fun _ => 11 / 2
    detector_max_stdev := fun _ => 3 / 100 }

/-- A configuration that asks for another detector than the default one. -/
def sampleConfig : FeatureDetectorConfig :=
  { detector_type := "ORB"
    smooth := 1
    max_range := 4
    max_stdev := 1 / 50
    publish_cloud := true
    publish_covariances := true
    show_keypoints := false }

/-- A frame with two keypoints, the first valid and the second not. -/
def sampleFrame : RGBDFrame :=
  { header := { seq := 0, stamp := 0, frame_id := "camera" }
    rgb_img := [[(0, 0, 0), (0, 0, 0)]]
    depth_img := [[1000, 0]]
    model := { fx := 525, fy := 525, cx := 1, cy := 1 / 2 }
    keypoints := [{ pt_x := 0, pt_y := 0 }, { pt_x := 1, pt_y := 0 }]
    descriptors := [[1], [2]]
    kp_valid := [true, false]
    kp_means := [fun _ => 1, fun _ => 0]
    kp_covariances := [fun _ _ => 1, fun _ _ => 0]
    n_valid_keypoints := 1 }

/-! ## Lemmas on the keypoint distributions -/

theorem distributionLoop_eq (policy : DepthUncertaintyModel) (max_z max_stdev_z : ℚ) :
    ∀ (kps : List KeyPoint) (acc : RGBDFrame),
      kps.foldl (distributionStep policy max_z max_stdev_z) acc =
        { acc with
          kp_valid := acc.kp_valid ++ kps.map fun kp =>
            (keypointDistribution policy acc.depth_img acc.model max_z max_stdev_z kp).1
          kp_means := acc.kp_means ++ kps.map fun kp =>
            (keypointDistribution policy acc.depth_img acc.model max_z max_stdev_z kp).2.1
          kp_covariances := acc.kp_covariances ++ kps.map fun kp =>
            (keypointDistribution policy acc.depth_img acc.model max_z max_stdev_z kp).2.2
          n_valid_keypoints := acc.n_valid_keypoints + ((kps.countP fun kp =>
            (keypointDistribution policy acc.depth_img acc.model max_z max_stdev_z kp).1 : Nat) :
              Int) } := by
  intro kps
  induction kps with
  | nil => intro acc; simp
  | cons kp kps ih =>
    intro acc
    rw [List.foldl_cons, ih]
    cases hv : (keypointDistribution policy acc.depth_img acc.model max_z max_stdev_z kp).1
    · simp [distributionStep, hv]
    · simp [distributionStep, hv]
      omega

theorem computeDistributions_kp_valid (policy : DepthUncertaintyModel) (frame : RGBDFrame)
    (max_z max_stdev_z : ℚ) :
    (computeDistributions policy frame max_z max_stdev_z).kp_valid =
      frame.keypoints.map fun kp =>
        (keypointDistribution policy frame.depth_img frame.model max_z max_stdev_z kp).1 := by
  simp [computeDistributions, computeDistributionsBody, distributionLoop_eq]

theorem computeDistributions_n_valid (policy : DepthUncertaintyModel) (frame : RGBDFrame)
    (max_z max_stdev_z : ℚ) :
    (computeDistributions policy frame max_z max_stdev_z).n_valid_keypoints =
      ((frame.keypoints.countP fun kp =>
        (keypointDistribution policy frame.depth_img frame.model max_z max_stdev_z kp).1 : Nat) :
          Int) := by
  simp [computeDistributions, computeDistributionsBody, distributionLoop_eq]

theorem count_true_map {α : Type} (p : α → Bool) (l : List α) :
    (l.map p).count true = l.countP p := by
  induction l with
  | nil => rfl
  | cons a l ih => cases h : p a <;> simp [List.countP_cons, h, ih]

theorem countP_eraseIdx_of_false {α : Type} (p : α → Bool) :
    ∀ (l : List α) (i : Nat) (a : α), l[i]? = some a → p a = false →
      (l.eraseIdx i).countP p = l.countP p := by
  intro l
  induction l with
  | nil => intro i a h; simp at h
  | cons b l ih =>
    intro i a h hp
    cases i with
    | zero =>
      have hb : b = a := by simpa using h
      simp [List.countP_cons, hb, hp]
    | succ i =>
      have h1 : l[i]? = some a := by simpa using h
      simp [List.countP_cons, ih i a h1 hp]

theorem cloudPointAt_succ (v : Bool) (vs : List Bool) (m : Vector3f) (ms : List Vector3f) :
    (cloudPointAt (v :: vs) (m :: ms) ∘ Nat.succ) = cloudPointAt vs ms := by
  funext i
  simp [cloudPointAt]

theorem cloud_points_eq :
    ∀ (vs : List Bool) (ms : List Vector3f), ms.length = vs.length →
      ((List.zip vs ms).filterMap fun vm =>
        if vm.1 then some (PointFeature.ofMean vm.2) else none) =
        (List.range vs.length).filterMap (cloudPointAt vs ms) := by
  intro vs
  induction vs with
  | nil => intro ms _; simp
  | cons v vs ih =>
    intro ms hm
    cases ms with
    | nil => simp at hm
    | cons m ms =>
      have hm1 : ms.length = vs.length := by simpa using hm
      rw [List.length_cons, List.range_succ_eq_map, List.filterMap_cons, List.filterMap_map,
        cloudPointAt_succ, ← ih ms hm1]
      cases v <;> simp [cloudPointAt, PointFeature.ofMean]

theorem cloud_points_length :
    ∀ (vs : List Bool) (ms : List Vector3f), ms.length = vs.length →
      ((List.zip vs ms).filterMap fun vm =>
        if vm.1 then some (PointFeature.ofMean vm.2) else none).length = vs.count true := by
  intro vs
  induction vs with
  | nil => intro ms _; simp
  | cons v vs ih =>
    intro ms hm
    cases ms with
    | nil => simp at hm
    | cons m ms =>
      have hm1 : ms.length = vs.length := by simpa using hm
      cases v <;> simp [ih ms hm1]

theorem cloud_points_getElem :
    ∀ (vs : List Bool) (ms : List Vector3f) (i : Nat) (m : Vector3f),
      vs[i]? = some true → ms[i]? = some m →
      ((List.zip vs ms).filterMap fun vm =>
        if vm.1 then some (PointFeature.ofMean vm.2) else none)[(vs.take i).count true]? =
        some (PointFeature.ofMean m) := by
  intro vs
  induction vs with
  | nil => intro ms i m hv; simp at hv
  | cons v vs ih =>
    intro ms i m hv hm
    cases ms with
    | nil => simp at hm
    | cons m0 ms =>
      cases i with
      | zero =>
        have h1 : v = true := by simpa using hv
        have h2 : m0 = m := by simpa using hm
        simp [h1, h2]
      | succ i =>
        have hv1 : vs[i]? = some true := by simpa using hv
        have hm1 : ms[i]? = some m := by simpa using hm
        have h := ih ms i m hv1 hm1
        cases v
        · simpa using h
        · simpa [List.count_cons] using h

theorem getVarZ_lt (z1 z2 : ℚ) (h1 : 0 < z1) (h2 : z1 < z2) :
    0 < getStdDevZ z1 ∧ getStdDevZ z1 < getStdDevZ z2 ∧ getVarZ z1 < getVarZ z2 := by
  have hk : (0 : ℚ) < Z_STDEV_CONSTANT := by norm_num [Z_STDEV_CONSTANT]
  have hz : z1 * z1 < z2 * z2 := by nlinarith
  have hs1 : 0 < getStdDevZ z1 := by
    unfold getStdDevZ
    positivity
  have hs : getStdDevZ z1 < getStdDevZ z2 := by
    unfold getStdDevZ
    rw [mul_assoc, mul_assoc]
    exact mul_lt_mul_of_pos_left hz hk
  refine ⟨hs1, hs, ?_⟩
  unfold getVarZ
  simp only
  nlinarith

/-! ## Lemmas on the covariance markers -/

theorem pushCovariance_eq (eigen : Matrix3f → (Fin 3 → ℚ) × (Fin 3 → Fin 3 → ℚ))
    (sqrt : ℚ → ℚ) (kp_mean : Vector3f) (kp_cov : Matrix3f) (points : List Point) :
    pushCovariance eigen sqrt kp_mean kp_cov points =
      points ++ axisEndPoints eigen sqrt kp_mean kp_cov := by
  simp [pushCovariance, pushAxis, axisEndPoints, axisEnds]

theorem axisEndPoints_length (eigen : Matrix3f → (Fin 3 → ℚ) × (Fin 3 → Fin 3 → ℚ))
    (sqrt : ℚ → ℚ) (kp_mean : Vector3f) (kp_cov : Matrix3f) :
    (axisEndPoints eigen sqrt kp_mean kp_cov).length = 6 := by
  simp [axisEndPoints, axisEnds]

theorem covarianceSegments_length (eigen : Matrix3f → (Fin 3 → ℚ) × (Fin 3 → Fin 3 → ℚ))
    (sqrt : ℚ → ℚ) :
    ∀ (vs : List Bool) (ms : List Vector3f) (cs : List Matrix3f),
      ms.length = vs.length → cs.length = vs.length →
      (covarianceSegments eigen sqrt vs ms cs).length = 6 * vs.count true := by
  intro vs
  induction vs with
  | nil => intro ms cs _ _; simp [covarianceSegments]
  | cons v vs ih =>
    intro ms cs hm hc
    cases ms with
    | nil => simp at hm
    | cons m ms =>
      cases cs with
      | nil => simp at hc
      | cons c cs =>
        have hm1 : ms.length = vs.length := by simpa using hm
        have hc1 : cs.length = vs.length := by simpa using hc
        cases v
        · simp [covarianceSegments, ih ms cs hm1 hc1]
        · simp [covarianceSegments, ih ms cs hm1 hc1, axisEndPoints_length, Nat.mul_add]
          omega

theorem covarianceLoop_eq (eigen : Matrix3f → (Fin 3 → ℚ) × (Fin 3 → Fin 3 → ℚ))
    (sqrt : ℚ → ℚ) (frame : RGBDFrame) (n : Nat)
    (hv : frame.kp_valid.length = n) (hm : frame.kp_means.length = n)
    (hc : frame.kp_covariances.length = n) :
    ∀ (m k : Nat) (marker : Marker), k + m = n →
      (List.range' k m).foldlM (covarianceStep eigen sqrt frame) marker =
        some { marker with
          points := marker.points ++
            covarianceSegments eigen sqrt (frame.kp_valid.drop k) (frame.kp_means.drop k)
              (frame.kp_covariances.drop k) } := by
  intro m
  induction m with
  | zero =>
    intro k marker hk
    have hk1 : k = n := by omega
    subst hk1
    simp [← hv, covarianceSegments]
  | succ m ih =>
    intro k marker hk
    have hkv : k < frame.kp_valid.length := by omega
    have hkm : k < frame.kp_means.length := by omega
    have hkc : k < frame.kp_covariances.length := by omega
    rw [List.range'_succ, List.foldlM_cons]
    rw [List.drop_eq_getElem_cons hkv, List.drop_eq_getElem_cons hkm,
      List.drop_eq_getElem_cons hkc]
    cases hval : frame.kp_valid[k] with
    | false =>
      have h1 : covarianceStep eigen sqrt frame marker k = some marker := by
        simp [covarianceStep, List.getElem?_eq_getElem hkv, hval]
      rw [h1]
      simp only [Option.bind_eq_bind, Option.some_bind]
      rw [ih (k + 1) marker (by omega)]
      simp [covarianceSegments]
    | true =>
      have h1 : covarianceStep eigen sqrt frame marker k =
          some { marker with
            points := pushCovariance eigen sqrt frame.kp_means[k] frame.kp_covariances[k]
              marker.points } := by
        simp [covarianceStep, List.getElem?_eq_getElem hkv, List.getElem?_eq_getElem hkm,
          List.getElem?_eq_getElem hkc, hval]
      rw [h1]
      simp only [Option.bind_eq_bind, Option.some_bind]
      rw [ih (k + 1) _ (by omega)]
      simp [covarianceSegments, pushCovariance_eq]

/-! ## Lemmas on the viewer -/

theorem resetDetector_detector_type (s : FeatureViewer) :
    (resetDetector s).detector_type_ = s.detector_type_ := by
  unfold resetDetector
  split_ifs <;> rfl

theorem resetDetector_installed (s : FeatureViewer) : (resetDetector s).Installed := by
  unfold FeatureViewer.Installed resetDetector detectorFor
  split_ifs with h1 h2 h3 h4
  · exact ⟨_, rfl, by simp [FeatureViewer.resetTo, h1], by simp [FeatureViewer.resetTo]⟩
  · exact ⟨_, rfl, by simp [FeatureViewer.resetTo, h2], by simp [FeatureViewer.resetTo]⟩
  · exact ⟨_, rfl, by simp [FeatureViewer.resetTo, h3], by simp [FeatureViewer.resetTo]⟩
  · exact ⟨_, rfl, by simp [FeatureViewer.resetTo, h4], by simp [FeatureViewer.resetTo]⟩
  · exact ⟨_, rfl, by simp only [FeatureViewer.resetTo], by simp [FeatureViewer.resetTo]⟩

theorem reconfigCallback_installed (s : FeatureViewer) (config : FeatureDetectorConfig)
    (h : s.Installed) :
    ∃ s1, reconfigCallback s config = some s1 ∧ s1.Installed := by
  obtain ⟨d, hd, hk, ha⟩ := h
  unfold reconfigCallback
  by_cases hty : s.detector_type_ = config.detector_type
  · simp only [hty, ne_eq, not_true_eq_false, if_false, hd]
    exact ⟨_, rfl, _, rfl, by simpa [FeatureDetector.setSmooth, FeatureDetector.setMaxRange,
      FeatureDetector.setMaxStDev, hty] using hk, by simpa [FeatureDetector.setSmooth,
      FeatureDetector.setMaxRange, FeatureDetector.setMaxStDev] using ha⟩
  · obtain ⟨d1, hd1, hk1, ha1⟩ :=
      resetDetector_installed { s with detector_type_ := config.detector_type }
    simp only [ne_eq, hty, not_false_eq_true, if_true, hd1]
    exact ⟨_, rfl, _, rfl, by simpa [FeatureDetector.setSmooth, FeatureDetector.setMaxRange,
      FeatureDetector.setMaxStDev] using hk1, by simpa [FeatureDetector.setSmooth,
      FeatureDetector.setMaxRange, FeatureDetector.setMaxStDev] using ha1⟩

theorem RGBDCallback_installed (s : FeatureViewer) (h : s.Installed) :
    ∃ s1, RGBDCallback s = some s1 ∧ s1.Installed := by
  obtain ⟨d, hd, hk, ha⟩ := h
  exact ⟨{ s with frame_count_ := s.frame_count_ + 1 }, by simp only [RGBDCallback, hd],
    d, hd, hk, ha⟩

theorem run_installed (events : List Event) :
    ∀ s : FeatureViewer, s.Installed → ∃ s1, s.run events = some s1 ∧ s1.Installed := by
  induction events with
  | nil => intro s h; exact ⟨s, rfl, h⟩
  | cons e events ih =>
    intro s h
    have hstep : ∃ s1, s.step e = some s1 ∧ s1.Installed := by
      cases e with
      | reconfig config => exact reconfigCallback_installed s config h
      | rgbd => exact RGBDCallback_installed s h
    obtain ⟨s1, hs1, hi1⟩ := hstep
    obtain ⟨s2, hs2, hi2⟩ := ih s1 hi1
    refine ⟨s2, ?_, hi2⟩
    simp only [FeatureViewer.run, List.foldlM_cons, hs1, Option.bind_eq_bind, Option.some_bind]
    exact hs2

theorem construct_installed (nh_private : NodeHandle) :
    (FeatureViewer.construct nh_private).Installed :=
  resetDetector_installed _

theorem resetDetector_eq_resetTo (s : FeatureViewer) :
    resetDetector s = s.resetTo (detectorFor s.detector_type_) := by
  unfold resetDetector detectorFor
  split_ifs with h1 h2 h3 h4
  · simp [h1]
  · simp [h2]
  · simp [h3]
  · simp [h4]
  · simp only

theorem reconfigCallback_detector (s : FeatureViewer) (config : FeatureDetectorConfig)
    (d : FeatureDetector) (hd : s.feature_detector_ = some d) :
    ∃ s1 d1, reconfigCallback s config = some s1 ∧ s1.feature_detector_ = some d1 ∧
      d1.addr = (if config.detector_type = s.detector_type_ then d.addr else s.n_alloc) ∧
      d1.smooth = config.smooth ∧ d1.max_range = config.max_range ∧
      d1.max_stdev = config.max_stdev ∧ s1.publish_cloud_ = config.publish_cloud ∧
      s1.publish_covariances_ = config.publish_covariances ∧
      s1.show_keypoints_ = config.show_keypoints := by
  unfold reconfigCallback
  by_cases hty : s.detector_type_ = config.detector_type
  · simp only [hty, ne_eq, not_true_eq_false, if_false, hd]
    exact ⟨_, _, rfl, rfl, by simp [FeatureDetector.setSmooth, FeatureDetector.setMaxRange,
      FeatureDetector.setMaxStDev], rfl, rfl, rfl, rfl, rfl, rfl⟩
  · have hty1 : ¬ config.detector_type = s.detector_type_ := fun h => hty h.symm
    simp only [ne_eq, hty, not_false_eq_true, if_true, resetDetector_eq_resetTo,
      FeatureViewer.resetTo, hty1, if_false]
    exact ⟨_, _, rfl, rfl, by simp [FeatureDetector.setSmooth, FeatureDetector.setMaxRange,
      FeatureDetector.setMaxStDev], rfl, rfl, rfl, rfl, rfl, rfl⟩

/-! ## The claims -/

/-- C8: after `reconfigCallback(c)` on a viewer that holds a detector, the
installed detector has max range `c.max_range`, max standard deviation
`c.max_stdev` and smoothing `c.smooth`, and the viewer's `publish_cloud_`,
`publish_covariances_` and `show_keypoints_` flags equal those of `c`; this
covers the call that keeps the detector and the call that replaces it. -/
theorem reconfigCallback_applies_config (s : FeatureViewer) (c : FeatureDetectorConfig)
    (h : s.feature_detector_.isSome = true) :
    ∃ s1 d1, reconfigCallback s c = some s1 ∧ s1.feature_detector_ = some d1 ∧
      d1.max_range = c.max_range ∧ d1.max_stdev = c.max_stdev ∧ d1.smooth = c.smooth ∧
      s1.publish_cloud_ = c.publish_cloud ∧
      s1.publish_covariances_ = c.publish_covariances ∧
      s1.show_keypoints_ = c.show_keypoints := by
  obtain ⟨d, hd⟩ := Option.isSome_iff_exists.mp h
  obtain ⟨s1, d1, h1, h2, _, h4, h5, h6, h7, h8, h9⟩ := reconfigCallback_detector s c d hd
  exact ⟨s1, d1, h1, h2, h5, h6, h4, h7, h8, h9⟩

/-- C8 at a concrete input: the freshly constructed viewer holds a GFT
detector, the configuration asks for ORB, so the detector is replaced during
the call and the new one carries the configured values. -/
theorem reconfigCallback_applies_config_witness :
    (FeatureViewer.construct sampleNodeHandle).feature_detector_.isSome = true ∧
    sampleConfig.detector_type ≠ (FeatureViewer.construct sampleNodeHandle).detector_type_ ∧
    ∃ s1 d1, reconfigCallback (FeatureViewer.construct sampleNodeHandle) sampleConfig = some s1 ∧
      s1.feature_detector_ = some d1 ∧
      d1.max_range = sampleConfig.max_range ∧ d1.max_stdev = sampleConfig.max_stdev ∧
      d1.smooth = sampleConfig.smooth ∧
      s1.publish_cloud_ = sampleConfig.publish_cloud ∧
      s1.publish_covariances_ = sampleConfig.publish_covariances ∧
      s1.show_keypoints_ = sampleConfig.show_keypoints :=
  ⟨by decide, by decide,
    reconfigCallback_applies_config (FeatureViewer.construct sampleNodeHandle) sampleConfig
      (by decide)⟩

/-- C9: in every state reached by constructing a viewer and delivering any
sequence of `reconfigCallback` and `RGBDCallback` calls (each of which finds
a detector to dereference), a detector is installed and it is the one that
belongs to `detector_type_` (ORB, SURF, GFT, STAR for their names, GFT for
any other string);
`resetDetector` leaves `detector_type_` unchanged; and from such a state
`reconfigCallback` keeps the detector object exactly when the configured
type equals the previous `detector_type_`. -/
theorem viewer_detector_invariant :
    (∀ (nh_private : NodeHandle) (events : List Event),
      ∃ s d, (FeatureViewer.construct nh_private).run events = some s ∧
        s.feature_detector_ = some d ∧
        d.kind = detectorFor s.detector_type_) ∧
    (detectorFor "ORB" = DetectorKind.ORB ∧ detectorFor "SURF" = DetectorKind.SURF ∧
      detectorFor "GFT" = DetectorKind.GFT ∧ detectorFor "STAR" = DetectorKind.STAR ∧
      ∀ t : String, t ≠ "ORB" → t ≠ "SURF" → t ≠ "STAR" → detectorFor t = DetectorKind.GFT) ∧
    (∀ s : FeatureViewer, (resetDetector s).detector_type_ = s.detector_type_) ∧
    (∀ (nh_private : NodeHandle) (events : List Event) (c : FeatureDetectorConfig),
      ∃ s d s1 d1, (FeatureViewer.construct nh_private).run events = some s ∧
        s.feature_detector_ = some d ∧
        reconfigCallback s c = some s1 ∧ s1.feature_detector_ = some d1 ∧
        (d1.addr = d.addr ↔ c.detector_type = s.detector_type_)) := by
  refine ⟨?_, ⟨rfl, rfl, rfl, rfl, ?_⟩, resetDetector_detector_type, ?_⟩
  · intro nh_private events
    obtain ⟨s, hs, d, hd, hk, _⟩ := run_installed events _ (construct_installed nh_private)
    exact ⟨s, d, hs, hd, hk⟩
  · intro t h1 h2 h3
    unfold detectorFor
    split <;> simp_all
  · intro nh_private events c
    obtain ⟨s, hs, d, hd, _, ha⟩ := run_installed events _ (construct_installed nh_private)
    obtain ⟨s1, d1, h1, h2, h3, _⟩ := reconfigCallback_detector s c d hd
    refine ⟨s, d, s1, d1, hs, hd, h1, h2, ?_⟩
    rw [h3]
    split_ifs with hty
    · simp [hty]
    · constructor
      · intro h; omega
      · intro h; exact absurd h hty

/-- C10: for a frame whose `kp_valid`, `kp_means` and `kp_covariances` are as
long as `keypoints`, `publishFeatureCovariances` reads the vectors in range
only (it returns a marker) and the marker holds exactly
`6 * (number of true entries of kp_valid)` points: the two end points of each
of the three covariance axes of each valid keypoint, in keypoint order, and
nothing for an invalid keypoint. -/
theorem publishFeatureCovariances_points
    (eigen : Matrix3f → (Fin 3 → ℚ) × (Fin 3 → Fin 3 → ℚ)) (sqrt : ℚ → ℚ) (frame : RGBDFrame)
    (hv : frame.kp_valid.length = frame.keypoints.length)
    (hm : frame.kp_means.length = frame.keypoints.length)
    (hc : frame.kp_covariances.length = frame.keypoints.length) :
    ∃ marker, publishFeatureCovariances eigen sqrt frame = some marker ∧
      marker.points.length = 6 * frame.kp_valid.count true ∧
      marker.points =
        covarianceSegments eigen sqrt frame.kp_valid frame.kp_means frame.kp_covariances := by
  have hloop := covarianceLoop_eq eigen sqrt frame frame.keypoints.length hv hm hc
    frame.keypoints.length 0
    { header := frame.header, ns := "covariances", id := 0, scale_x := 0.0025, points := [] }
    (by omega)
  refine ⟨Marker.mk frame.header "covariances" 0 0.0025
    (covarianceSegments eigen sqrt frame.kp_valid frame.kp_means frame.kp_covariances),
    ?_, ?_, rfl⟩
  · unfold publishFeatureCovariances
    rw [List.range_eq_range', hloop]
    simp
  · exact covarianceSegments_length eigen sqrt _ _ _ (by omega) (by omega)

/-- C10 at a concrete input: a frame with one valid and one invalid keypoint
yields a marker of six points. -/
theorem publishFeatureCovariances_points_witness :
    sampleFrame.kp_valid.length = sampleFrame.keypoints.length ∧
    sampleFrame.kp_means.length = sampleFrame.keypoints.length ∧
    sampleFrame.kp_covariances.length = sampleFrame.keypoints.length ∧
    ∃ marker, publishFeatureCovariances (fun c => (fun i => c i i, c)) id sampleFrame =
        some marker ∧
      marker.points.length = 6 * sampleFrame.kp_valid.count true ∧
      marker.points = covarianceSegments (fun c => (fun i => c i i, c)) id
        sampleFrame.kp_valid sampleFrame.kp_means sampleFrame.kp_covariances :=
  ⟨rfl, rfl, rfl,
    publishFeatureCovariances_points (fun c => (fun i => c i i, c)) id sampleFrame rfl rfl rfl⟩

/-- C2: whatever the thresholds `max_z` and `max_stdev_z` (and whatever the
noise policy), a keypoint whose depth reading is 0 has `kp_valid` false after
`computeDistributions(max_z, max_stdev_z)` and is not counted in
`n_valid_keypoints`: the count is the number of true flags, and it is the
count the frame gets without that keypoint. -/
theorem computeDistributions_zero_depth_invalid (policy : DepthUncertaintyModel)
    (frame : RGBDFrame) (max_z max_stdev_z : ℚ) (i : Nat) (kp : KeyPoint)
    (hkp : frame.keypoints[i]? = some kp) (hz : depthAt frame.depth_img kp = some 0) :
    (computeDistributions policy frame max_z max_stdev_z).kp_valid[i]? = some false ∧
    (computeDistributions policy frame max_z max_stdev_z).n_valid_keypoints =
      (((computeDistributions policy frame max_z max_stdev_z).kp_valid.count true : Nat) : Int) ∧
    (computeDistributions policy frame max_z max_stdev_z).n_valid_keypoints =
      (computeDistributions policy { frame with keypoints := frame.keypoints.eraseIdx i }
        max_z max_stdev_z).n_valid_keypoints := by
  have hinv : (keypointDistribution policy frame.depth_img frame.model max_z max_stdev_z kp).1 =
      false := by
    simp [keypointDistribution, hz]
  refine ⟨?_, ?_, ?_⟩
  · rw [computeDistributions_kp_valid, List.getElem?_map, hkp]
    simp [hinv]
  · rw [computeDistributions_n_valid, computeDistributions_kp_valid, count_true_map]
  · rw [computeDistributions_n_valid, computeDistributions_n_valid]
    simp only
    rw [countP_eraseIdx_of_false _ frame.keypoints i kp hkp hinv]

/-- C2 at a concrete input: the second keypoint of the sample frame reads
depth 0 and stays invalid under thresholds of a million. -/
theorem computeDistributions_zero_depth_invalid_witness :
    sampleFrame.keypoints[1]? = some { pt_x := 1, pt_y := 0 } ∧
    depthAt sampleFrame.depth_img { pt_x := 1, pt_y := 0 } = some 0 ∧
    (computeDistributions samplePolicy sampleFrame 1000000 1000000).kp_valid[1]? = some false ∧
    (computeDistributions samplePolicy sampleFrame 1000000 1000000).n_valid_keypoints =
      (((computeDistributions samplePolicy sampleFrame 1000000 1000000).kp_valid.count true :
        Nat) : Int) ∧
    (computeDistributions samplePolicy sampleFrame 1000000 1000000).n_valid_keypoints =
      (computeDistributions samplePolicy
        { sampleFrame with keypoints := sampleFrame.keypoints.eraseIdx 1 }
        1000000 1000000).n_valid_keypoints :=
  ⟨by decide, by decide,
    computeDistributions_zero_depth_invalid samplePolicy sampleFrame 1000000 1000000 1
      { pt_x := 1, pt_y := 0 } (by decide) (by decide)⟩

/-- C3: with the quadratic model `getStdDevZ(z) = Z_STDEV_CONSTANT * z^2`,
`Z_STDEV_CONSTANT = 0.001425`, and `getVarZ(z)` the square of that standard
deviation, for all depths `0 < z1 < z2` (in particular those within the
maximum range) `getVarZ(z1) >= 0` and `getVarZ(z1) < getVarZ(z2)`.  Depths
are exact rationals here. -/
theorem getVarZ_nonneg_strictMono (z1 z2 : ℚ) (h1 : 0 < z1) (h2 : z1 < z2) :
    Z_STDEV_CONSTANT = 1425 / 1000000 ∧
    getStdDevZ z1 = 1425 / 1000000 * z1 ^ 2 ∧
    getVarZ z1 = (getStdDevZ z1) ^ 2 ∧
    0 ≤ getVarZ z1 ∧
    getVarZ z1 < getVarZ z2 := by
  refine ⟨by norm_num [Z_STDEV_CONSTANT], ?_, ?_, ?_, (getVarZ_lt z1 z2 h1 h2).2.2⟩
  · unfold getStdDevZ Z_STDEV_CONSTANT
    norm_num
    ring
  · unfold getVarZ
    ring
  · unfold getVarZ
    exact mul_self_nonneg _

/-- C3 at a concrete input: the depths 1 and 2 (metres). -/
theorem getVarZ_nonneg_strictMono_witness :
    (0 : ℚ) < 1 ∧ (1 : ℚ) < 2 ∧
    Z_STDEV_CONSTANT = 1425 / 1000000 ∧
    getStdDevZ 1 = 1425 / 1000000 * 1 ^ 2 ∧
    getVarZ 1 = (getStdDevZ 1) ^ 2 ∧
    0 ≤ getVarZ 1 ∧
    getVarZ 1 < getVarZ 2 :=
  ⟨by norm_num, by norm_num, getVarZ_nonneg_strictMono 1 2 (by norm_num) (by norm_num)⟩

/-- C5: for every frame that satisfies the frame invariant (`kp_valid` and
`kp_means` as long as `keypoints`, `n_valid_keypoints` the number of true
flags), `constructFeaturePointCloud` fills the cloud with exactly the means
of the keypoints whose `kp_valid` is true, in keypoint order: reading the
keypoints in order, the point of a valid keypoint `i` has the three entries
of `kp_means[i]` as coordinates and stands at the position given by the
number of valid keypoints before `i`; the cloud has as many points as there
are true flags, which is `n_valid_keypoints`, so none stands for an invalid
keypoint; `publishFeatureCloud` hands on these points under the frame's
header. -/
theorem constructFeaturePointCloud_valid_means (frame : RGBDFrame) (cloud : PointCloudFeature)
    (hv : frame.kp_valid.length = frame.keypoints.length)
    (hm : frame.kp_means.length = frame.keypoints.length)
    (hn : frame.n_valid_keypoints = ((frame.kp_valid.count true : Nat) : Int)) :
    (constructFeaturePointCloud frame cloud).points =
      (List.range frame.keypoints.length).filterMap
        (cloudPointAt frame.kp_valid frame.kp_means) ∧
    (∀ (i : Nat) (m : Vector3f), frame.kp_valid[i]? = some true → frame.kp_means[i]? = some m →
      (constructFeaturePointCloud frame cloud).points[(frame.kp_valid.take i).count true]? =
        some { x := m 0, y := m 1, z := m 2 }) ∧
    (constructFeaturePointCloud frame cloud).points.length = frame.kp_valid.count true ∧
    (((constructFeaturePointCloud frame cloud).points.length : Nat) : Int) =
      frame.n_valid_keypoints ∧
    (constructFeaturePointCloud frame cloud).header = cloud.header ∧
    (publishFeatureCloud frame).points = (constructFeaturePointCloud frame cloud).points ∧
    (publishFeatureCloud frame).header = frame.header := by
  have hlen : frame.kp_means.length = frame.kp_valid.length := by omega
  have hcount : (constructFeaturePointCloud frame cloud).points.length =
      frame.kp_valid.count true := cloud_points_length _ _ hlen
  refine ⟨?_, ?_, hcount, ?_, rfl, rfl, rfl⟩
  · rw [← hv, ← cloud_points_eq _ _ hlen]
    rfl
  · intro i m hi hmi
    exact cloud_points_getElem frame.kp_valid frame.kp_means i m hi hmi
  · rw [hcount, hn]

/-- C5 at a concrete input: the sample frame, whose first keypoint is valid
with mean (1, 1, 1) and whose second is not; the cloud is that one point. -/
theorem constructFeaturePointCloud_valid_means_witness :
    sampleFrame.kp_valid.length = sampleFrame.keypoints.length ∧
    sampleFrame.kp_means.length = sampleFrame.keypoints.length ∧
    sampleFrame.n_valid_keypoints = ((sampleFrame.kp_valid.count true : Nat) : Int) ∧
    (constructFeaturePointCloud sampleFrame (publishFeatureCloud sampleFrame)).points =
      [{ x := 1, y := 1, z := 1 }] ∧
    (constructFeaturePointCloud sampleFrame (publishFeatureCloud sampleFrame)).points =
      (List.range sampleFrame.keypoints.length).filterMap
        (cloudPointAt sampleFrame.kp_valid sampleFrame.kp_means) ∧
    (((constructFeaturePointCloud sampleFrame (publishFeatureCloud sampleFrame)).points.length :
      Nat) : Int) = sampleFrame.n_valid_keypoints :=
  ⟨rfl, rfl, rfl, rfl,
    (constructFeaturePointCloud_valid_means sampleFrame (publishFeatureCloud sampleFrame)
      rfl rfl rfl).1,
    (constructFeaturePointCloud_valid_means sampleFrame (publishFeatureCloud sampleFrame)
      rfl rfl rfl).2.2.2.1⟩

/-- C6: a call of `computeDistributions` without thresholds uses the
defaults of the declaration, a maximum range of 5.5 and a maximum depth
standard deviation of 0.03. -/
theorem computeDistributions_defaults (policy : DepthUncertaintyModel) (frame : RGBDFrame) :
    computeDistributions policy frame = computeDistributions policy frame (11 / 2) (3 / 100) ∧
    computeDistributions policy frame = computeDistributions policy frame 5.5 0.03 := by
  refine ⟨?_, rfl⟩
  have h1 : (5.5 : ℚ) = 11 / 2 := by norm_num
  have h2 : (0.03 : ℚ) = 3 / 100 := by norm_num
  rw [h1, h2]

end ccny_rgbd
